import Mathlib

/-!
Verification model of the sophross nutrition-tracking repository.

The nutrient data model and its derived arithmetic are translated from
src/ingredients.rs; the persistence layer (schema setup, repository
insert/select/delete operations over the SQLite store) is translated from
src/database.rs as a shallow embedding: the database file is an explicit
state value, each table is a list of rows, SQL statements become functions
on that state, and a Rust panic or a discarded SQL error is represented
with `Option`/fault parameters as documented at each definition.

Rust `f32` values are modelled as exact rationals (`ℚ`).  The one place
where the floating-point pipeline loses information beyond representation
error is `insert_ingredient`, which renders every numeric field into the
SQL text with the `{:.1}` format specifier: that rounding to one decimal
digit (ties to even, as Rust formats them) is modelled exactly by `fmtQ`.
-/

namespace Sophross

/-- `Unit` from src/ingredients.rs: the five measurement units. -/
inductive Unit where
  | grams
  | teaspoons
  | tablespoons
  | pieces
  | cups
deriving DecidableEq

/-- `impl ToSql for Unit`: `*self as i64`, i.e. the declaration-order
discriminant 0..4. -/
def Unit.to_sql : Unit → Int
  | .grams => 0
  | .teaspoons => 1
  | .tablespoons => 2
  | .pieces => 3
  | .cups => 4

/-- `Unit::from_uint` from src/ingredients.rs.  The Rust function panics on
any input other than 0..4 (`_ => panic!(...)`); the panic is modelled as
`none`. -/
def Unit.from_uint : Nat → Option Unit
  | 0 => some .grams
  | 1 => some .teaspoons
  | 2 => some .tablespoons
  | 3 => some .pieces
  | 4 => some .cups
  | _ => none

/-- `EssentialAminoAcids` from src/ingredients.rs (9 float-gram fields). -/
structure EssentialAminoAcids where
  histidine : ℚ
  isoleucine : ℚ
  leucine : ℚ
  lysine : ℚ
  methionine : ℚ
  phenylalanine : ℚ
  threonine : ℚ
  tryptophan : ℚ
  valine : ℚ
deriving DecidableEq

/-- `EssentialAminoAcids::total`. -/
def EssentialAminoAcids.total (e : EssentialAminoAcids) : ℚ :=
  e.histidine + e.isoleucine + e.leucine + e.lysine + e.methionine
    + e.phenylalanine + e.threonine + e.tryptophan + e.valine

/-- `NonEssentialAminoAcids` from src/ingredients.rs (11 float-gram fields). -/
structure NonEssentialAminoAcids where
  alanine : ℚ
  arginine : ℚ
  asparagine : ℚ
  aspartic_acid : ℚ
  cysteine : ℚ
  glutamic_acid : ℚ
  glutamine : ℚ
  glycine : ℚ
  proline : ℚ
  serine : ℚ
  tyrosine : ℚ
deriving DecidableEq

/-- `NonEssentialAminoAcids::total`. -/
def NonEssentialAminoAcids.total (n : NonEssentialAminoAcids) : ℚ :=
  n.alanine + n.arginine + n.asparagine + n.aspartic_acid + n.cysteine
    + n.glutamic_acid + n.glutamine + n.glycine + n.proline + n.serine
    + n.tyrosine

/-- `Proteins` from src/ingredients.rs. -/
structure Proteins where
  essential_amino_acids : EssentialAminoAcids
  non_essential_amino_acids : NonEssentialAminoAcids
deriving DecidableEq

/-- `Proteins::total_proteins`. -/
def Proteins.total_proteins (p : Proteins) : ℚ :=
  p.essential_amino_acids.total + p.non_essential_amino_acids.total

/-- `Fats` from src/ingredients.rs. -/
structure Fats where
  saturated : ℚ
  monounsaturated : ℚ
  polyunsaturated : ℚ
deriving DecidableEq

/-- `Fats::total_fats`. -/
def Fats.total_fats (f : Fats) : ℚ :=
  f.saturated + f.monounsaturated + f.polyunsaturated

/-- `Carbohydrates` from src/ingredients.rs. -/
structure Carbohydrates where
  starch : ℚ
  fiber : ℚ
  sugars : ℚ
  sugar_alcohols : ℚ
deriving DecidableEq

/-- `Carbohydrates::total_carbs`. -/
def Carbohydrates.total_carbs (c : Carbohydrates) : ℚ :=
  c.starch + c.fiber + c.sugars + c.sugar_alcohols

/-- `Carbohydrates::net_carbs`. -/
def Carbohydrates.net_carbs (c : Carbohydrates) : ℚ :=
  c.starch + c.sugars + (1 / 2) * c.sugar_alcohols

/-- `Macronutrients` from src/ingredients.rs. -/
structure Macronutrients where
  proteins : Proteins
  fats : Fats
  carbohydrates : Carbohydrates
deriving DecidableEq

/-- `Macronutrients::estimate_calories`. -/
def Macronutrients.estimate_calories (m : Macronutrients) : ℚ :=
  m.proteins.total_proteins * 4 + m.fats.total_fats * 9
    + m.carbohydrates.net_carbs * 4

/-- `Vitamins` from src/ingredients.rs (14 float fields). -/
structure Vitamins where
  vitamin_a : ℚ
  vitamin_b1 : ℚ
  vitamin_b2 : ℚ
  vitamin_b3 : ℚ
  vitamin_b5 : ℚ
  vitamin_b6 : ℚ
  vitamin_b9 : ℚ
  vitamin_b12 : ℚ
  vitamin_c : ℚ
  vitamin_d : ℚ
  vitamin_e : ℚ
  vitamin_k : ℚ
  betaine : ℚ
  choline : ℚ
deriving DecidableEq

/-- `Minerals` from src/ingredients.rs (10 float fields). -/
structure Minerals where
  calcium : ℚ
  copper : ℚ
  iron : ℚ
  magnesium : ℚ
  manganese : ℚ
  phosphorus : ℚ
  potassium : ℚ
  selenium : ℚ
  sodium : ℚ
  zinc : ℚ
deriving DecidableEq

/-- `Micronutrients` from src/ingredients.rs. -/
structure Micronutrients where
  vitamins : Vitamins
  minerals : Minerals
deriving DecidableEq

/-- `NutritionalInfo` from src/ingredients.rs. -/
structure NutritionalInfo where
  default_amount : ℚ
  default_unit : Unit
  kilocalories : ℚ
  macronutrients : Macronutrients
  micronutrients : Micronutrients
deriving DecidableEq

/-- `NutritionalInfo::estimate_calories`. -/
def NutritionalInfo.estimate_calories (n : NutritionalInfo) : ℚ :=
  n.macronutrients.estimate_calories

/-- `Category` from src/ingredients.rs.  `icon_color` is an RGBA color that
the repository always stores and transports as its hex string
(`Color32::to_hex` on write, `Color32::from_hex` on read); the model keeps
the hex string itself, so the color codec is the identity here. -/
structure Category where
  id : Nat
  name : String
  icon_name : String
  icon_color : String
deriving DecidableEq

/-- `Ingredient` from src/ingredients.rs. -/
structure Ingredient where
  id : Nat
  name : String
  brand : String
  categories : List Category
  nutritional_info : List NutritionalInfo
deriving DecidableEq

/-- `LogEntry` from src/ingredients.rs: an id, a resolved ingredient and a
fraction of its default serving. -/
structure LogEntry where
  id : Nat
  ingredient : Ingredient
  fraction : ℚ
deriving DecidableEq

/-! ### The `{:.1}` formatting applied by `insert_ingredient`

`Database::insert_ingredient` renders every numeric field into its SQL text
with Rust's `{:.1}` format specifier, which rounds to one decimal digit
with ties going to the even digit.  `fmtQ` is that rounding on the exact
rational model of the value. -/

/-- `10 * q`, written with `mkRat` on the numerator and denominator so that
the kernel can evaluate it on concrete inputs. -/
def mulTenQ (q : ℚ) : ℚ :=
  mkRat (10 * q.num) q.den

/-- `10 * q` rounded to the nearest integer, ties to even (the rounding
Rust's float formatting applies to the rendered digit): the fractional
part `r` of `10 * q` is compared against `1/2` by cross-multiplying. -/
def rhe10 (q : ℚ) : ℤ :=
  let t := mulTenQ q
  let n := t.floor
  let r := mkRat (t.num - n * (t.den : ℤ)) t.den
  if 2 * r.num < (r.den : ℤ) then n
  else if (r.den : ℤ) < 2 * r.num then n + 1
  else if n % 2 = 0 then n else n + 1

/-- The value actually stored for a field formatted with `{:.1}`:
`10 * q` rounded half-to-even, divided by ten. -/
def fmtQ (q : ℚ) : ℚ :=
  mkRat (rhe10 q) 10

/-- `q` is exactly representable with one decimal digit (so `{:.1}` does not
change it). -/
def oneDec (q : ℚ) : Bool :=
  (mulTenQ q).den == 1

/-- All entries of a list survive `{:.1}` formatting unchanged. -/
def oneDecList (l : List ℚ) : Bool :=
  l.all oneDec

def fmtEssentialAminoAcids (e : EssentialAminoAcids) : EssentialAminoAcids :=
  { histidine := fmtQ e.histidine, isoleucine := fmtQ e.isoleucine
    , leucine := fmtQ e.leucine, lysine := fmtQ e.lysine
    , methionine := fmtQ e.methionine, phenylalanine := fmtQ e.phenylalanine
    , threonine := fmtQ e.threonine, tryptophan := fmtQ e.tryptophan
    , valine := fmtQ e.valine }

def fmtNonEssentialAminoAcids (n : NonEssentialAminoAcids) : NonEssentialAminoAcids :=
  { alanine := fmtQ n.alanine, arginine := fmtQ n.arginine
    , asparagine := fmtQ n.asparagine, aspartic_acid := fmtQ n.aspartic_acid
    , cysteine := fmtQ n.cysteine, glutamic_acid := fmtQ n.glutamic_acid
    , glutamine := fmtQ n.glutamine, glycine := fmtQ n.glycine
    , proline := fmtQ n.proline, serine := fmtQ n.serine
    , tyrosine := fmtQ n.tyrosine }

def fmtProteins (p : Proteins) : Proteins :=
  { essential_amino_acids := fmtEssentialAminoAcids p.essential_amino_acids
    , non_essential_amino_acids := fmtNonEssentialAminoAcids p.non_essential_amino_acids }

def fmtFats (f : Fats) : Fats :=
  { saturated := fmtQ f.saturated, monounsaturated := fmtQ f.monounsaturated
    , polyunsaturated := fmtQ f.polyunsaturated }

def fmtCarbohydrates (c : Carbohydrates) : Carbohydrates :=
  { starch := fmtQ c.starch, fiber := fmtQ c.fiber, sugars := fmtQ c.sugars
    , sugar_alcohols := fmtQ c.sugar_alcohols }

def fmtVitamins (v : Vitamins) : Vitamins :=
  { vitamin_a := fmtQ v.vitamin_a, vitamin_b1 := fmtQ v.vitamin_b1
    , vitamin_b2 := fmtQ v.vitamin_b2, vitamin_b3 := fmtQ v.vitamin_b3
    , vitamin_b5 := fmtQ v.vitamin_b5, vitamin_b6 := fmtQ v.vitamin_b6
    , vitamin_b9 := fmtQ v.vitamin_b9, vitamin_b12 := fmtQ v.vitamin_b12
    , vitamin_c := fmtQ v.vitamin_c, vitamin_d := fmtQ v.vitamin_d
    , vitamin_e := fmtQ v.vitamin_e, vitamin_k := fmtQ v.vitamin_k
    , betaine := fmtQ v.betaine, choline := fmtQ v.choline }

def fmtMinerals (m : Minerals) : Minerals :=
  { calcium := fmtQ m.calcium, copper := fmtQ m.copper, iron := fmtQ m.iron
    , magnesium := fmtQ m.magnesium, manganese := fmtQ m.manganese
    , phosphorus := fmtQ m.phosphorus, potassium := fmtQ m.potassium
    , selenium := fmtQ m.selenium, sodium := fmtQ m.sodium
    , zinc := fmtQ m.zinc }

def fmtMacronutrients (m : Macronutrients) : Macronutrients :=
  { proteins := fmtProteins m.proteins, fats := fmtFats m.fats
    , carbohydrates := fmtCarbohydrates m.carbohydrates }

def fmtMicronutrients (m : Micronutrients) : Micronutrients :=
  { vitamins := fmtVitamins m.vitamins, minerals := fmtMinerals m.minerals }

/-- The value of a `NutritionalInfo` after being pushed through
`insert_ingredient`'s `{:.1}` SQL formatting: every numeric field rounded
to one decimal digit, the unit kept. -/
def fmtNutritionalInfo (n : NutritionalInfo) : NutritionalInfo :=
  { default_amount := fmtQ n.default_amount, default_unit := n.default_unit
    , kilocalories := fmtQ n.kilocalories
    , macronutrients := fmtMacronutrients n.macronutrients
    , micronutrients := fmtMicronutrients n.micronutrients }

/-- The 53 numeric fields of a `NutritionalInfo` that `insert_ingredient`
formats with `{:.1}`. -/
def niFields (n : NutritionalInfo) : List ℚ :=
  [n.default_amount, n.kilocalories
   , n.macronutrients.proteins.essential_amino_acids.histidine
   , n.macronutrients.proteins.essential_amino_acids.isoleucine
   , n.macronutrients.proteins.essential_amino_acids.leucine
   , n.macronutrients.proteins.essential_amino_acids.lysine
   , n.macronutrients.proteins.essential_amino_acids.methionine
   , n.macronutrients.proteins.essential_amino_acids.phenylalanine
   , n.macronutrients.proteins.essential_amino_acids.threonine
   , n.macronutrients.proteins.essential_amino_acids.tryptophan
   , n.macronutrients.proteins.essential_amino_acids.valine
   , n.macronutrients.proteins.non_essential_amino_acids.alanine
   , n.macronutrients.proteins.non_essential_amino_acids.arginine
   , n.macronutrients.proteins.non_essential_amino_acids.asparagine
   , n.macronutrients.proteins.non_essential_amino_acids.aspartic_acid
   , n.macronutrients.proteins.non_essential_amino_acids.cysteine
   , n.macronutrients.proteins.non_essential_amino_acids.glutamic_acid
   , n.macronutrients.proteins.non_essential_amino_acids.glutamine
   , n.macronutrients.proteins.non_essential_amino_acids.glycine
   , n.macronutrients.proteins.non_essential_amino_acids.proline
   , n.macronutrients.proteins.non_essential_amino_acids.serine
   , n.macronutrients.proteins.non_essential_amino_acids.tyrosine
   , n.macronutrients.fats.saturated
   , n.macronutrients.fats.monounsaturated
   , n.macronutrients.fats.polyunsaturated
   , n.macronutrients.carbohydrates.starch
   , n.macronutrients.carbohydrates.fiber
   , n.macronutrients.carbohydrates.sugars
   , n.macronutrients.carbohydrates.sugar_alcohols
   , n.micronutrients.vitamins.vitamin_a
   , n.micronutrients.vitamins.vitamin_b1
   , n.micronutrients.vitamins.vitamin_b2
   , n.micronutrients.vitamins.vitamin_b3
   , n.micronutrients.vitamins.vitamin_b5
   , n.micronutrients.vitamins.vitamin_b6
   , n.micronutrients.vitamins.vitamin_b9
   , n.micronutrients.vitamins.vitamin_b12
   , n.micronutrients.vitamins.vitamin_c
   , n.micronutrients.vitamins.vitamin_d
   , n.micronutrients.vitamins.vitamin_e
   , n.micronutrients.vitamins.vitamin_k
   , n.micronutrients.vitamins.betaine
   , n.micronutrients.vitamins.choline
   , n.micronutrients.minerals.calcium
   , n.micronutrients.minerals.copper
   , n.micronutrients.minerals.iron
   , n.micronutrients.minerals.magnesium
   , n.micronutrients.minerals.manganese
   , n.micronutrients.minerals.phosphorus
   , n.micronutrients.minerals.potassium
   , n.micronutrients.minerals.selenium
   , n.micronutrients.minerals.sodium
   , n.micronutrients.minerals.zinc]

/-- The concrete macronutrient vector of the spec's arithmetic test case:
10 g protein all in histidine, no fat, starch 20, fiber 5, sugars 5,
sugar alcohols 4. -/
def specMacros : Macronutrients :=
  { proteins :=
      { essential_amino_acids :=
          { histidine := 10, isoleucine := 0, leucine := 0, lysine := 0
            , methionine := 0, phenylalanine := 0, threonine := 0
            , tryptophan := 0, valine := 0 }
        , non_essential_amino_acids :=
          { alanine := 0, arginine := 0, asparagine := 0, aspartic_acid := 0
            , cysteine := 0, glutamic_acid := 0, glutamine := 0, glycine := 0
            , proline := 0, serine := 0, tyrosine := 0 } }
    , fats := { saturated := 0, monounsaturated := 0, polyunsaturated := 0 }
    , carbohydrates :=
      { starch := 20, fiber := 5, sugars := 5, sugar_alcohols := 4 } }

/-! ### The persisted state (src/database.rs)

One row type per table of `setup_tables`.  `REAL` columns are `ℚ`,
`INTEGER` key columns are `Nat`.  A foreign-key column that
`insert_ingredient` fills from the `_variables` temp table via
`(SELECT value FROM _variables ... LIMIT 1)` is `Option Nat`, because that
sub-select yields SQL `NULL` when no row matches.  The five nutrient
sub-tables group their `REAL` columns with the entity structures above,
whose fields are exactly the table's columns.  `INTEGER PRIMARY KEY`
columns are assigned from a per-table fresh counter. -/

/-- A row of `ingredients`. -/
structure IngredientRow where
  id : Nat
  name : String
  brand : String
deriving DecidableEq

/-- A row of `categories` (`icon_color` is the stored hex string). -/
structure CategoryRow where
  id : Nat
  name : String
  icon_name : String
  icon_color : String
deriving DecidableEq

/-- A row of the `ingredient_categories` join table. -/
structure IngredientCategoryRow where
  ingredient_id : Option Nat
  category_id : Nat
deriving DecidableEq

/-- A row of `nutritional_info`; `default_unit` is the stored integer code. -/
structure NutritionalInfoRow where
  id : Nat
  default_amount : ℚ
  default_unit : Nat
  kilocalories : ℚ
  ingredient_id : Option Nat
deriving DecidableEq

/-- A row of `protein_sets` (20 amino-acid `REAL` columns). -/
structure ProteinSetRow where
  id : Nat
  nutrition_info_id : Option Nat
  proteins : Proteins
deriving DecidableEq

/-- A row of `fat_sets`. -/
structure FatSetRow where
  id : Nat
  nutrition_info_id : Option Nat
  fats : Fats
deriving DecidableEq

/-- A row of `carbohydrate_sets`. -/
structure CarbohydrateSetRow where
  id : Nat
  nutrition_info_id : Option Nat
  carbohydrates : Carbohydrates
deriving DecidableEq

/-- A row of `vitamin_sets` (14 `REAL` columns). -/
structure VitaminSetRow where
  id : Nat
  nutrition_info_id : Option Nat
  vitamins : Vitamins
deriving DecidableEq

/-- A row of `mineral_sets` (10 `REAL` columns). -/
structure MineralSetRow where
  id : Nat
  nutrition_info_id : Option Nat
  minerals : Minerals
deriving DecidableEq

/-- A row of `daily_logs` (`date` is the ISO 8601 text). -/
structure DailyLogRow where
  id : Nat
  date : String
  ingredient_id : Nat
  fraction : ℚ
deriving DecidableEq

/-- The database state: the ten tables of `setup_tables`, the session's
`_variables` temp table (`none` while it does not exist, as after the
`DROP TABLE IF EXISTS _variables` at the end of a nutritional-info batch),
and one fresh-id counter per `INTEGER PRIMARY KEY` column. -/
structure DB where
  ingredients : List IngredientRow
  categories : List CategoryRow
  ingredient_categories : List IngredientCategoryRow
  nutritional_info : List NutritionalInfoRow
  protein_sets : List ProteinSetRow
  fat_sets : List FatSetRow
  carbohydrate_sets : List CarbohydrateSetRow
  vitamin_sets : List VitaminSetRow
  mineral_sets : List MineralSetRow
  daily_logs : List DailyLogRow
  vars : Option (List (String × Nat))
  next_ingredient_id : Nat
  next_category_id : Nat
  next_nutritional_info_id : Nat
  next_protein_set_id : Nat
  next_fat_set_id : Nat
  next_carbohydrate_set_id : Nat
  next_vitamin_set_id : Nat
  next_mineral_set_id : Nat
  next_daily_log_id : Nat
deriving DecidableEq

/-- A freshly created store: every table empty, `_variables` absent,
rowids starting at 1 (SQLite's first rowid). -/
def emptyDb : DB :=
  { ingredients := [], categories := [], ingredient_categories := []
    , nutritional_info := [], protein_sets := [], fat_sets := []
    , carbohydrate_sets := [], vitamin_sets := [], mineral_sets := []
    , daily_logs := [], vars := none
    , next_ingredient_id := 1, next_category_id := 1
    , next_nutritional_info_id := 1, next_protein_set_id := 1
    , next_fat_set_id := 1, next_carbohydrate_set_id := 1
    , next_vitamin_set_id := 1, next_mineral_set_id := 1
    , next_daily_log_id := 1 }

/-- `SELECT value FROM _variables WHERE var_name = k LIMIT 1`: the first
row in insertion order whose `var_name` matches, if any. -/
def lookupVar (vs : List (String × Nat)) (k : String) : Option Nat :=
  (vs.find? (fun p => p.1 == k)).map (fun p => p.2)

/-! ### Repository operations (src/database.rs)

Operations whose SQL can fail at runtime (disk I/O, a violated foreign-key
constraint, or SQL text broken by an unescaped quote in an interpolated
string) take explicit fault parameters: a `true` flag / `some e` entry
means that statement batch returned `Err` and, the batch being one
transaction, left the store unchanged.  `insert_ingredient` discards both
`execute_batch` results (`let _ = ...`), so it has no error output at
all; the delete batches propagate the first `Err`. -/

/-- `Database::insert_category`: inserts name/icon_name/icon_color (the
color as its hex string); the fresh row id is not surfaced. -/
def insert_category (db : DB) (c : Category) : DB :=
  { db with
      categories := db.categories ++
        [{ id := db.next_category_id, name := c.name
           , icon_name := c.icon_name, icon_color := c.icon_color }]
      , next_category_id := db.next_category_id + 1 }

/-- `Database::get_categories`: all category rows, decoded (the color hex
decode is the identity in this model). -/
def get_categories (db : DB) : List Category :=
  db.categories.map fun r =>
    { id := r.id, name := r.name, icon_name := r.icon_name
      , icon_color := r.icon_color }

/-- `Database::delete_category`: `DELETE FROM categories WHERE id = ...`,
which cascades to `ingredient_categories` rows of that category; returns
the new state and the count of deleted `categories` rows (the value
`execute` reports). -/
def delete_category (db : DB) (c : Category) : DB × Nat :=
  ({ db with
      categories := db.categories.filter (fun r => r.id != c.id)
      , ingredient_categories :=
        db.ingredient_categories.filter (fun ic => ic.category_id != c.id) }
   , db.categories.countP (fun r => r.id == c.id))

/-- `Database::delete_categories`: sequential per-item delete; a per-item
`Err` (fault `some e` at that position) is returned at once, the items
already deleted are kept, and the remaining items are not attempted. -/
def delete_categories (db : DB) :
    List Category → List (Option Nat) → DB × Except Nat Nat
  | [], _ => (db, .ok 0)
  | c :: cs, faults =>
    match faults.headD none with
    | some e => (db, .error e)
    | none =>
      let step := delete_category db c
      match delete_categories step.1 cs faults.tail with
      | (db2, .ok m) => (db2, .ok (step.2 + m))
      | (db2, .error e) => (db2, .error e)

/-- `Database::delete_ingredient`: `DELETE FROM ingredients WHERE id = ...`
with the foreign-key cascades of the schema: the ingredient's
`nutritional_info` rows go, the five nutrient sub-rows of each removed
`nutritional_info` row go, and so do its `ingredient_categories` and
`daily_logs` rows.  Returns the count of deleted `ingredients` rows. -/
def delete_ingredient (db : DB) (ing : Ingredient) : DB × Nat :=
  let removedNi :=
    (db.nutritional_info.filter (fun n => n.ingredient_id == some ing.id)).map
      (fun n => n.id)
  ({ db with
      ingredients := db.ingredients.filter (fun r => r.id != ing.id)
      , ingredient_categories :=
        db.ingredient_categories.filter (fun ic => ic.ingredient_id != some ing.id)
      , nutritional_info :=
        db.nutritional_info.filter (fun n => n.ingredient_id != some ing.id)
      , protein_sets := db.protein_sets.filter (fun p =>
          match p.nutrition_info_id with
          | none => true
          | some x => !(removedNi.contains x))
      , fat_sets := db.fat_sets.filter (fun f =>
          match f.nutrition_info_id with
          | none => true
          | some x => !(removedNi.contains x))
      , carbohydrate_sets := db.carbohydrate_sets.filter (fun c =>
          match c.nutrition_info_id with
          | none => true
          | some x => !(removedNi.contains x))
      , vitamin_sets := db.vitamin_sets.filter (fun v =>
          match v.nutrition_info_id with
          | none => true
          | some x => !(removedNi.contains x))
      , mineral_sets := db.mineral_sets.filter (fun m =>
          match m.nutrition_info_id with
          | none => true
          | some x => !(removedNi.contains x))
      , daily_logs := db.daily_logs.filter (fun d => d.ingredient_id != ing.id) }
   , db.ingredients.countP (fun r => r.id == ing.id))

/-- `Database::delete_ingredients`: same sequential batch shape as
`delete_categories`. -/
def delete_ingredients (db : DB) :
    List Ingredient → List (Option Nat) → DB × Except Nat Nat
  | [], _ => (db, .ok 0)
  | ing :: ings, faults =>
    match faults.headD none with
    | some e => (db, .error e)
    | none =>
      let step := delete_ingredient db ing
      match delete_ingredients step.1 ings faults.tail with
      | (db2, .ok m) => (db2, .ok (step.2 + m))
      | (db2, .error e) => (db2, .error e)

/-- `as u8` on `Unit` in `insert_ingredient`'s format arguments: the
declaration-order discriminant. -/
def Unit.as_u8 : Unit → Nat
  | .grams => 0
  | .teaspoons => 1
  | .tablespoons => 2
  | .pieces => 3
  | .cups => 4

/-- The first `execute_batch` of `Database::insert_ingredient`, one
transaction: `CREATE TEMP TABLE IF NOT EXISTS _variables`, insert the
ingredient row, record `last_insert_rowid()` under `ingredient_id` in
`_variables`, then one `ingredient_categories` insert per category, each
reading `ingredient_id` back out of `_variables` (first matching row).
`fault = true`: the batch returned `Err` and changed nothing. -/
def insertIngredientBatch1 (db : DB) (ing : Ingredient) (fault : Bool) : DB :=
  if fault then db
  else
    let vs0 := db.vars.getD []
    let newId := db.next_ingredient_id
    let vs1 := vs0 ++ [("ingredient_id", newId)]
    let catRows := ing.categories.map fun c =>
      ({ ingredient_id := lookupVar vs1 "ingredient_id", category_id := c.id }
        : IngredientCategoryRow)
    { db with
        ingredients := db.ingredients ++
          [{ id := newId, name := ing.name, brand := ing.brand }]
        , next_ingredient_id := db.next_ingredient_id + 1
        , ingredient_categories := db.ingredient_categories ++ catRows
        , vars := some vs1 }

/-- The per-`NutritionalInfo` `execute_batch` of
`Database::insert_ingredient`, one transaction: insert the
`nutritional_info` row (its `ingredient_id` read from `_variables`),
record the fresh `nutritional_info` id in `_variables`, insert the five
nutrient sub-rows against it, then `DROP TABLE IF EXISTS _variables`.
Every `REAL` value goes through the `{:.1}` formatting (`fmtQ`); the unit
is stored `as u8`.  If `_variables` does not exist the batch's sub-selects
fail and the batch changes nothing; `fault = true` models any other
`Err`. -/
def insertNutritionalInfoBatch (db : DB) (n : NutritionalInfo) (fault : Bool) : DB :=
  if fault then db
  else
    match db.vars with
    | none => db
    | some vs0 =>
      let niId := db.next_nutritional_info_id
      let ingId := lookupVar vs0 "ingredient_id"
      let vs1 := vs0 ++ [("nutritional_info_id", niId)]
      let parent := lookupVar vs1 "nutritional_info_id"
      { db with
          nutritional_info := db.nutritional_info ++
            [{ id := niId, default_amount := fmtQ n.default_amount
               , default_unit := n.default_unit.as_u8
               , kilocalories := fmtQ n.kilocalories, ingredient_id := ingId }]
          , next_nutritional_info_id := niId + 1
          , protein_sets := db.protein_sets ++
            [{ id := db.next_protein_set_id, nutrition_info_id := parent
               , proteins := fmtProteins n.macronutrients.proteins }]
          , next_protein_set_id := db.next_protein_set_id + 1
          , fat_sets := db.fat_sets ++
            [{ id := db.next_fat_set_id, nutrition_info_id := parent
               , fats := fmtFats n.macronutrients.fats }]
          , next_fat_set_id := db.next_fat_set_id + 1
          , carbohydrate_sets := db.carbohydrate_sets ++
            [{ id := db.next_carbohydrate_set_id, nutrition_info_id := parent
               , carbohydrates := fmtCarbohydrates n.macronutrients.carbohydrates }]
          , next_carbohydrate_set_id := db.next_carbohydrate_set_id + 1
          , vitamin_sets := db.vitamin_sets ++
            [{ id := db.next_vitamin_set_id, nutrition_info_id := parent
               , vitamins := fmtVitamins n.micronutrients.vitamins }]
          , next_vitamin_set_id := db.next_vitamin_set_id + 1
          , mineral_sets := db.mineral_sets ++
            [{ id := db.next_mineral_set_id, nutrition_info_id := parent
               , minerals := fmtMinerals n.micronutrients.minerals }]
          , next_mineral_set_id := db.next_mineral_set_id + 1
          , vars := none }

/-- The `for nutritional_info in &ingredient.nutritional_info` loop of
`insert_ingredient`: one batch per entry, each result discarded. -/
def insertIngredientLoop (db : DB) :
    List NutritionalInfo → List Bool → DB
  | [], _ => db
  | n :: ns, faults =>
    insertIngredientLoop
      (insertNutritionalInfoBatch db n (faults.headD false)) ns faults.tail

/-- `Database::insert_ingredient`: the first batch (ingredient row +
category links), then one batch per attached `NutritionalInfo`.  Both
`execute_batch` results are discarded, so the function has no error
output: it returns only the resulting store. -/
def insert_ingredient (db : DB) (ing : Ingredient)
    (fault1 : Bool) (faults : List Bool) : DB :=
  insertIngredientLoop (insertIngredientBatch1 db ing fault1)
    ing.nutritional_info faults

/-! ### The read path (src/database.rs) -/

/-- One result row of the six-table `INNER JOIN` that `get_ingredients`
and `get_ingredient_by_id` select from. -/
structure JoinRow where
  ing : IngredientRow
  ni : NutritionalInfoRow
  ps : ProteinSetRow
  fs : FatSetRow
  cs : CarbohydrateSetRow
  vs : VitaminSetRow
  ms : MineralSetRow
deriving DecidableEq

/-- The join rows contributed by one `ingredients` row: every combination
of a `nutritional_info` row for it and one row of each of the five
nutrient sub-tables for that `nutritional_info` row. -/
def joinRowsFor (db : DB) (ing : IngredientRow) : List JoinRow :=
  (db.nutritional_info.filter (fun n => n.ingredient_id == some ing.id)).flatMap fun ni =>
  (db.protein_sets.filter (fun p => p.nutrition_info_id == some ni.id)).flatMap fun ps =>
  (db.fat_sets.filter (fun f => f.nutrition_info_id == some ni.id)).flatMap fun fs =>
  (db.carbohydrate_sets.filter (fun c => c.nutrition_info_id == some ni.id)).flatMap fun cs =>
  (db.vitamin_sets.filter (fun v => v.nutrition_info_id == some ni.id)).flatMap fun vs =>
  (db.mineral_sets.filter (fun m => m.nutrition_info_id == some ni.id)).map fun ms =>
  { ing := ing, ni := ni, ps := ps, fs := fs, cs := cs, vs := vs, ms := ms }

/-- The full result set of the `INNER JOIN` of `get_ingredients`. -/
def joinRows (db : DB) : List JoinRow :=
  db.ingredients.flatMap (joinRowsFor db)

/-- The per-row category sub-query of the read path:
`SELECT ... FROM categories c INNER JOIN ingredient_categories ic ON
ic.category_id = c.id AND ic.ingredient_id = {i}`. -/
def categoriesFor (db : DB) (i : Nat) : List Category :=
  db.categories.flatMap fun c =>
    (db.ingredient_categories.filter
      (fun ic => ic.category_id == c.id && ic.ingredient_id == some i)).map
      fun _ =>
        { id := c.id, name := c.name, icon_name := c.icon_name
          , icon_color := c.icon_color }

/-- Decoding one join row into an `Ingredient`, as the `query_map` closure
of `get_ingredients` / `get_ingredient_by_id` does: run the category
sub-query, decode the unit with `Unit::from_uint` (whose panic on an
out-of-range code is `none` here), and wrap the single decoded
`NutritionalInfo` in a one-element list (`vec![nutritional_info]`). -/
def decodeJoinRow (db : DB) (r : JoinRow) : Option Ingredient :=
  match Unit.from_uint r.ni.default_unit with
  | none => none
  | some u => some
    { id := r.ing.id, name := r.ing.name, brand := r.ing.brand
      , categories := categoriesFor db r.ing.id
      , nutritional_info :=
        [{ default_amount := r.ni.default_amount, default_unit := u
           , kilocalories := r.ni.kilocalories
           , macronutrients :=
             { proteins := r.ps.proteins, fats := r.fs.fats
               , carbohydrates := r.cs.carbohydrates }
           , micronutrients :=
             { vitamins := r.vs.vitamins, minerals := r.ms.minerals } }] }

/-- The `for x in iter { data.push(x.unwrap()) }` collection loop of the
read path: each element decoded in turn, the first failure (a panic in the
source) aborting the whole call. -/
def collectSome (f : α → Option β) : List α → Option (List β)
  | [] => some []
  | a :: as_ =>
    match f a with
    | none => none
    | some b =>
      match collectSome f as_ with
      | none => none
      | some bs => some (b :: bs)

/-- `Database::get_ingredients`: decode every row of the six-table inner
join; `none` models the panic on a row that fails to decode. -/
def get_ingredients (db : DB) : Option (List Ingredient) :=
  collectSome (decodeJoinRow db) (joinRows db)

/-- `Database::get_ingredient_by_id`: the same join constrained to one id
with `LIMIT 1` (and a `break` after the first pushed row). -/
def get_ingredient_by_id (db : DB) (i : Nat) : Option (List Ingredient) :=
  collectSome (decodeJoinRow db)
    (((joinRows db).filter (fun r => r.ing.id == i)).take 1)

/-- `Database::insert_log_entry`: append one `daily_logs` row. -/
def insert_log_entry (db : DB) (date : String) (e : LogEntry) : DB :=
  { db with
      daily_logs := db.daily_logs ++
        [{ id := db.next_daily_log_id, date := date
           , ingredient_id := e.ingredient.id, fraction := e.fraction }]
      , next_daily_log_id := db.next_daily_log_id + 1 }

/-- `Database::get_log_entries`: select the rows of the given date and
resolve each one's ingredient through `get_ingredient_by_id`, indexing the
result with `[0]`.  An empty by-id result (or a decode panic inside it)
panics the whole read, which is `none` here. -/
def get_log_entries (db : DB) (date : String) : Option (List LogEntry) :=
  collectSome
    (fun (r : DailyLogRow) =>
      match get_ingredient_by_id db r.ingredient_id with
      | none => none
      | some [] => none
      | some (ing :: _) => some { id := r.id, ingredient := ing, fraction := r.fraction })
    (db.daily_logs.filter (fun r => r.date == date))

/-! ### Schema setup (src/database.rs, `setup_tables`)

`setup_tables` is ten `CREATE TABLE IF NOT EXISTS` statements.  For the
schema-level claim the store is modelled one level up: a list of named
tables, each carrying its (opaque) row data. -/

/-- A store at the schema level: named tables with their rows. -/
abbrev TableStore := List (String × List (List String))

/-- `CREATE TABLE IF NOT EXISTS name`: no-op when a table of that name
exists, otherwise add it empty. -/
def create_table_if_not_exists (s : TableStore) (name : String) : TableStore :=
  if s.any (fun t => t.1 == name) then s else s ++ [(name, [])]

/-- The ten tables `setup_tables` creates, in statement order. -/
def setupTableNames : List String :=
  ["ingredients", "categories", "ingredient_categories", "nutritional_info"
   , "protein_sets", "fat_sets", "carbohydrate_sets", "vitamin_sets"
   , "mineral_sets", "daily_logs"]

/-- `Database::setup_tables`: run the ten `CREATE TABLE IF NOT EXISTS`
statements in order. -/
def setup_tables (s : TableStore) : TableStore :=
  setupTableNames.foldl create_table_if_not_exists s

/-- Referential sanity of a store, as SQLite's enabled foreign keys and
`INTEGER PRIMARY KEY` allocation maintain it: every stored id is below its
table's fresh counter and every foreign key reference is below the
referenced table's fresh counter. -/
def WfDb (db : DB) : Prop :=
  (∀ r ∈ db.ingredients, r.id < db.next_ingredient_id) ∧
  (∀ n ∈ db.nutritional_info, n.id < db.next_nutritional_info_id ∧
    ∀ i, n.ingredient_id = some i → i < db.next_ingredient_id) ∧
  (∀ p ∈ db.protein_sets, ∀ j, p.nutrition_info_id = some j →
    j < db.next_nutritional_info_id) ∧
  (∀ f ∈ db.fat_sets, ∀ j, f.nutrition_info_id = some j →
    j < db.next_nutritional_info_id) ∧
  (∀ c ∈ db.carbohydrate_sets, ∀ j, c.nutrition_info_id = some j →
    j < db.next_nutritional_info_id) ∧
  (∀ v ∈ db.vitamin_sets, ∀ j, v.nutrition_info_id = some j →
    j < db.next_nutritional_info_id) ∧
  (∀ m ∈ db.mineral_sets, ∀ j, m.nutrition_info_id = some j →
    j < db.next_nutritional_info_id)

/-- A `nutritional_info` row has exactly one row in each of the five
nutrient sub-tables. -/
def completeNi (db : DB) (ni : NutritionalInfoRow) : Prop :=
  db.protein_sets.countP (fun p => p.nutrition_info_id == some ni.id) = 1 ∧
  db.fat_sets.countP (fun f => f.nutrition_info_id == some ni.id) = 1 ∧
  db.carbohydrate_sets.countP (fun c => c.nutrition_info_id == some ni.id) = 1 ∧
  db.vitamin_sets.countP (fun v => v.nutrition_info_id == some ni.id) = 1 ∧
  db.mineral_sets.countP (fun m => m.nutrition_info_id == some ni.id) = 1

/-! ### Concrete sample data -/

def zeroEssential : EssentialAminoAcids := ⟨0, 0, 0, 0, 0, 0, 0, 0, 0⟩

def zeroNonEssential : NonEssentialAminoAcids := ⟨0, 0, 0, 0, 0, 0, 0, 0, 0, 0, 0⟩

def zeroProteins : Proteins := ⟨zeroEssential, zeroNonEssential⟩

def zeroFats : Fats := ⟨0, 0, 0⟩

def zeroCarbohydrates : Carbohydrates := ⟨0, 0, 0, 0⟩

def zeroMacronutrients : Macronutrients := ⟨zeroProteins, zeroFats, zeroCarbohydrates⟩

def zeroVitamins : Vitamins := ⟨0, 0, 0, 0, 0, 0, 0, 0, 0, 0, 0, 0, 0, 0⟩

def zeroMinerals : Minerals := ⟨0, 0, 0, 0, 0, 0, 0, 0, 0, 0⟩

def zeroMicronutrients : Micronutrients := ⟨zeroVitamins, zeroMinerals⟩

/-- A fully populated `NutritionalInfo` whose numeric fields all carry one
decimal digit at most (100 g serving, 50 kcal, all nutrients 0). -/
def zeroNutritionalInfo : NutritionalInfo :=
  ⟨100, .grams, 50, zeroMacronutrients, zeroMicronutrients⟩

/-- A `NutritionalInfo` with `histidine = 0.25` g (exactly representable in
`f32`, not representable with one decimal digit). -/
def quarterNutritionalInfo : NutritionalInfo :=
  { zeroNutritionalInfo with
      macronutrients.proteins.essential_amino_acids.histidine := mkRat 1 4 }

/-- The ingredient of the C2 counterexample. -/
def quarterIngredient : Ingredient :=
  ⟨0, "Oats", "Acme", [], [quarterNutritionalInfo]⟩

/-- An ingredient whose only `NutritionalInfo` has one-decimal fields. -/
def plainIngredient : Ingredient :=
  ⟨0, "Rice", "Acme", [], [zeroNutritionalInfo]⟩

/-- Witness store for the join-filtering claim: ingredient 1 has a complete
nutrient cluster, ingredient 2 has no nutrition data at all. -/
def dbJoin : DB :=
  { emptyDb with
      ingredients := [⟨1, "a", "b"⟩, ⟨2, "c", "d"⟩]
      , nutritional_info := [⟨1, 100, 0, 50, some 1⟩]
      , protein_sets := [⟨1, some 1, zeroProteins⟩]
      , fat_sets := [⟨1, some 1, zeroFats⟩]
      , carbohydrate_sets := [⟨1, some 1, zeroCarbohydrates⟩]
      , vitamin_sets := [⟨1, some 1, zeroVitamins⟩]
      , mineral_sets := [⟨1, some 1, zeroMinerals⟩]
      , next_ingredient_id := 3, next_nutritional_info_id := 2
      , next_protein_set_id := 2, next_fat_set_id := 2
      , next_carbohydrate_set_id := 2, next_vitamin_set_id := 2
      , next_mineral_set_id := 2 }

/-- What `get_ingredients` returns on `dbJoin`. -/
def outJoin : List Ingredient :=
  [⟨1, "a", "b", [], [zeroNutritionalInfo]⟩]

/-- Witness store for the orphaned-log-entry claim: one `daily_logs` row
whose `ingredient_id` 5 matches no ingredient. -/
def dbOrphan : DB :=
  { emptyDb with daily_logs := [⟨1, "2024-01-01", 5, 1⟩] }

/-- The orphaned row of `dbOrphan`. -/
def orphanRow : DailyLogRow := ⟨1, "2024-01-01", 5, 1⟩

/-- Witness store for the batch-delete claim. -/
def dbBatch : DB :=
  { emptyDb with
      categories := [⟨1, "fruit", "apple", "#ff0000ff"⟩, ⟨2, "veg", "leaf", "#00ff00ff"⟩]
      , ingredients := [⟨1, "x", "y"⟩, ⟨2, "z", "w"⟩]
      , next_category_id := 3, next_ingredient_id := 3 }

def catFruit : Category := ⟨1, "fruit", "apple", "#ff0000ff"⟩

def catVeg : Category := ⟨2, "veg", "leaf", "#00ff00ff"⟩

def ingX : Ingredient := ⟨1, "x", "y", [], []⟩

def ingZ : Ingredient := ⟨2, "z", "w", [], []⟩

/-- Witness store for the schema-setup claim: an already-initialized store
holding one `categories` row. -/
def storePre : TableStore := [("categories", [["2", "veg", "leaf", "#00ff00ff"]])]

/-- Witness store for the one-`NutritionalInfo`-per-entry claim: ingredient
1 holds two complete nutrient clusters. -/
def dbTwoNi : DB :=
  { emptyDb with
      ingredients := [⟨1, "a", "b"⟩]
      , nutritional_info := [⟨1, 100, 0, 50, some 1⟩, ⟨2, 200, 1, 70, some 1⟩]
      , protein_sets := [⟨1, some 1, zeroProteins⟩, ⟨2, some 2, zeroProteins⟩]
      , fat_sets := [⟨1, some 1, zeroFats⟩, ⟨2, some 2, zeroFats⟩]
      , carbohydrate_sets := [⟨1, some 1, zeroCarbohydrates⟩, ⟨2, some 2, zeroCarbohydrates⟩]
      , vitamin_sets := [⟨1, some 1, zeroVitamins⟩, ⟨2, some 2, zeroVitamins⟩]
      , mineral_sets := [⟨1, some 1, zeroMinerals⟩, ⟨2, some 2, zeroMinerals⟩]
      , next_ingredient_id := 2, next_nutritional_info_id := 3
      , next_protein_set_id := 3, next_fat_set_id := 3
      , next_carbohydrate_set_id := 3, next_vitamin_set_id := 3
      , next_mineral_set_id := 3 }

/-- What `get_ingredients` returns on `dbTwoNi`: one list entry per join
row, each carrying a single `NutritionalInfo`. -/
def outTwoNi : List Ingredient :=
  [⟨1, "a", "b", [], [zeroNutritionalInfo]⟩
   , ⟨1, "a", "b", [], [⟨200, .teaspoons, 70, zeroMacronutrients, zeroMicronutrients⟩]⟩]

/-! ## Theorems -/

theorem mulTenQ_eq (q : ℚ) : mulTenQ q = 10 * q := by
  rw [mulTenQ, Rat.mkRat_eq_div]
  push_cast
  rw [mul_div_assoc, Rat.num_div_den]

theorem fmtQ_eq_of_oneDec (q : ℚ) (h : oneDec q = true) : fmtQ q = q := by
  have hden : (mulTenQ q).den = 1 := by
    simpa [oneDec] using h
  have hcast : ((mulTenQ q).num : ℚ) = mulTenQ q := (Rat.den_eq_one_iff _).mp hden
  have hfl : (mulTenQ q).floor = (mulTenQ q).num := by
    simp [Rat.floor, hden]
  rw [fmtQ, rhe10]
  simp only [hfl, hden, Nat.cast_one, mul_one, sub_self, Rat.zero_mkRat]
  have h01 : 2 * (0 : ℚ).num < ((0 : ℚ).den : ℤ) := by norm_num
  rw [if_pos h01, Rat.mkRat_eq_div]
  rw [div_eq_iff (by norm_num : ((10 : ℕ) : ℚ) ≠ 0)]
  rw [hcast, mulTenQ_eq, mul_comm]
  norm_num

theorem flatMap_nil_of_forall {f : α → List β} :
    ∀ {l : List α}, (∀ a ∈ l, f a = []) → l.flatMap f = []
  | [], _ => rfl
  | a :: as_, h => by
    rw [List.flatMap_cons, h a (List.mem_cons_self a as_),
      flatMap_nil_of_forall (fun x hx => h x (List.mem_cons_of_mem a hx))]
    rfl

theorem countP_flatMap_eq (l : List α) (f : α → List β) (p : β → Bool) :
    (l.flatMap f).countP p = (l.map fun a => (f a).countP p).sum := by
  induction l with
  | nil => rfl
  | cons a as_ ih =>
    rw [List.flatMap_cons, List.countP_append, List.map_cons, List.sum_cons, ih]

theorem length_flatMap_eq (l : List α) (f : α → List β) :
    (l.flatMap f).length = (l.map fun a => (f a).length).sum := by
  induction l with
  | nil => rfl
  | cons a as_ ih =>
    rw [List.flatMap_cons, List.length_append, List.map_cons, List.sum_cons, ih]

theorem flatMap_ite_eq_filter (l : List α) (p : α → Bool) (f : α → List β) :
    (l.flatMap fun a => if p a then f a else []) = (l.filter p).flatMap f := by
  induction l with
  | nil => rfl
  | cons a as_ ih =>
    by_cases h : p a = true
    · rw [List.flatMap_cons, List.filter_cons_of_pos h, List.flatMap_cons, if_pos h, ih]
    · rw [List.flatMap_cons, List.filter_cons_of_neg (by simp_all),
        if_neg h, List.nil_append, ih]

theorem sum_map_ite_count (l : List α) (p : α → Bool) (g : α → ℕ) (C : ℕ)
    (h : ∀ a ∈ l, p a = true → g a = C) :
    (l.map fun a => if p a then g a else 0).sum = l.countP p * C := by
  induction l with
  | nil => simp
  | cons a as_ ih =>
    rw [List.map_cons, List.sum_cons, List.countP_cons,
      ih (fun x hx => h x (List.mem_cons_of_mem a hx))]
    by_cases hp : p a = true
    · simp [hp, h a (List.mem_cons_self a as_) hp]
      ring
    · simp [hp]

theorem countP_or_split (l : List α) (p q : α → Bool) :
    l.countP (fun a => p a || q a) = l.countP p + l.countP (fun a => q a && !p a) := by
  induction l with
  | nil => rfl
  | cons a as_ ih =>
    simp only [List.countP_cons, ih]
    cases hp : p a <;> cases hq : q a <;> simp <;> ring

theorem collectSome_forall₂ {f : α → Option β} :
    ∀ {l : List α} {l' : List β}, collectSome f l = some l' →
      List.Forall₂ (fun a b => f a = some b) l l'
  | [], l', h => by
    simp only [collectSome, Option.some.injEq] at h
    exact h ▸ List.Forall₂.nil
  | a :: as_, l', h => by
    rw [collectSome] at h
    cases hfa : f a with
    | none => rw [hfa] at h; exact absurd h (by simp)
    | some b =>
      rw [hfa] at h
      cases hrec : collectSome f as_ with
      | none => rw [hrec] at h; exact absurd h (by simp)
      | some bs =>
        rw [hrec] at h
        simp only [Option.some.injEq] at h
        exact h ▸ List.Forall₂.cons hfa (collectSome_forall₂ hrec)

theorem collectSome_none_of_mem {f : α → Option β} :
    ∀ {l : List α} {a : α}, a ∈ l → f a = none → collectSome f l = none
  | b :: bs, a, ha, hfa => by
    rw [collectSome]
    rcases List.mem_cons.mp ha with rfl | hmem
    · rw [hfa]
    · cases hfb : f b with
      | none => rfl
      | some c => rw [collectSome_none_of_mem hmem hfa]

theorem forall₂_exists_right {R : α → β → Prop} :
    ∀ {l : List α} {l' : List β}, List.Forall₂ R l l' → ∀ b ∈ l', ∃ a ∈ l, R a b := by
  intro l l' h
  induction h with
  | nil => intro b hb; exact absurd hb (List.not_mem_nil b)
  | cons hab _ ih =>
    intro b hb
    rcases List.mem_cons.mp hb with rfl | hmem
    · exact ⟨_, List.mem_cons_self _ _, hab⟩
    · obtain ⟨a, ha, har⟩ := ih b hmem
      exact ⟨a, List.mem_cons_of_mem _ ha, har⟩

theorem forall₂_exists_left {R : α → β → Prop} :
    ∀ {l : List α} {l' : List β}, List.Forall₂ R l l' → ∀ a ∈ l, ∃ b ∈ l', R a b := by
  intro l l' h
  induction h with
  | nil => intro a ha; exact absurd ha (List.not_mem_nil a)
  | cons hab _ ih =>
    intro a ha
    rcases List.mem_cons.mp ha with rfl | hmem
    · exact ⟨_, List.mem_cons_self _ _, hab⟩
    · obtain ⟨b, hb, hbr⟩ := ih a hmem
      exact ⟨b, List.mem_cons_of_mem _ hb, hbr⟩

theorem forall₂_countP_eq {R : α → β → Prop} {p : α → Bool} {q : β → Bool}
    (hpq : ∀ a b, R a b → p a = q b) :
    ∀ {l : List α} {l' : List β}, List.Forall₂ R l l' → l.countP p = l'.countP q := by
  intro l l' h
  induction h with
  | nil => rfl
  | cons hab _ ih =>
    simp only [List.countP_cons, ih, hpq _ _ hab]

/-- C1: `estimate_calories` is the Atwater 4/9/4 combination of
`total_proteins`, `total_fats` and `net_carbs`, where `net_carbs` counts
starch, sugars and half the sugar alcohols; on the spec's concrete
macronutrient vector it yields 148. -/
theorem estimate_calories_atwater :
    (∀ m : Macronutrients,
      m.estimate_calories =
        m.proteins.total_proteins * 4 + m.fats.total_fats * 9
          + m.carbohydrates.net_carbs * 4 ∧
      m.carbohydrates.net_carbs =
        m.carbohydrates.starch + m.carbohydrates.sugars
          + (1 / 2) * m.carbohydrates.sugar_alcohols) ∧
    specMacros.estimate_calories = 148 := by
  refine ⟨fun m => ⟨rfl, rfl⟩, ?_⟩
  norm_num [specMacros, Macronutrients.estimate_calories, Proteins.total_proteins
    , EssentialAminoAcids.total, NonEssentialAminoAcids.total, Fats.total_fats
    , Carbohydrates.net_carbs]

/-- C4: decoding a stored unit code 0..4 yields the corresponding unit
(0=grams, 1=teaspoons, 2=tablespoons, 3=pieces, 4=cups) and re-encoding it
with the `ToSql` discriminant cast gives the same code back, while every
other code makes `Unit::from_uint` fail fatally (a panic, `none` here) —
it never falls back to one of the five units. -/
theorem unit_code_roundtrip :
    (Unit.from_uint 0 = some .grams ∧ Unit.from_uint 1 = some .teaspoons ∧
     Unit.from_uint 2 = some .tablespoons ∧ Unit.from_uint 3 = some .pieces ∧
     Unit.from_uint 4 = some .cups) ∧
    (∀ (c : Nat) (u : Unit), Unit.from_uint c = some u → u.to_sql = (c : Int)) ∧
    (∀ c : Nat, 5 ≤ c → Unit.from_uint c = none) := by
  refine ⟨⟨rfl, rfl, rfl, rfl, rfl⟩, ?_, ?_⟩
  · intro c u h
    match c, h with
    | 0, h => cases h; rfl
    | 1, h => cases h; rfl
    | 2, h => cases h; rfl
    | 3, h => cases h; rfl
    | 4, h => cases h; rfl
    | (n + 5), h => cases h
  · intro c hc
    obtain ⟨m, rfl⟩ : ∃ m, c = m + 5 := ⟨c - 5, by omega⟩
    rfl

/-- Witness for C4 at the concrete out-of-range code 99 and at code 2. -/
theorem unit_code_roundtrip_witness :
    Unit.from_uint 99 = none ∧ Unit.tablespoons.to_sql = ((2 : Nat) : Int) :=
  ⟨unit_code_roundtrip.2.2 99 (by norm_num)
   , unit_code_roundtrip.2.1 2 Unit.tablespoons rfl⟩

theorem from_uint_as_u8 (u : Unit) : Unit.from_uint u.as_u8 = some u := by
  cases u <;> rfl

theorem decodeJoinRow_spec {db : DB} {r : JoinRow} {g : Ingredient}
    (h : decodeJoinRow db r = some g) :
    g.id = r.ing.id ∧ g.nutritional_info.length = 1 := by
  rw [decodeJoinRow] at h
  cases hu : Unit.from_uint r.ni.default_unit with
  | none => rw [hu] at h; cases h
  | some u => rw [hu] at h; cases h; exact ⟨rfl, rfl⟩

theorem mem_joinRowsFor_iff {db : DB} {a : IngredientRow} {r : JoinRow} :
    r ∈ joinRowsFor db a ↔
      r.ing = a ∧
      r.ni ∈ db.nutritional_info ∧ r.ni.ingredient_id = some a.id ∧
      r.ps ∈ db.protein_sets ∧ r.ps.nutrition_info_id = some r.ni.id ∧
      r.fs ∈ db.fat_sets ∧ r.fs.nutrition_info_id = some r.ni.id ∧
      r.cs ∈ db.carbohydrate_sets ∧ r.cs.nutrition_info_id = some r.ni.id ∧
      r.vs ∈ db.vitamin_sets ∧ r.vs.nutrition_info_id = some r.ni.id ∧
      r.ms ∈ db.mineral_sets ∧ r.ms.nutrition_info_id = some r.ni.id := by
  constructor
  · intro h
    simp only [joinRowsFor, List.mem_flatMap, List.mem_filter, List.mem_map,
      beq_iff_eq] at h
    obtain ⟨ni, ⟨hni, hnieq⟩, ps, ⟨hps, hpseq⟩, fs, ⟨hfs, hfseq⟩, cs, ⟨hcs, hcseq⟩,
      vs, ⟨hvs, hvseq⟩, ms, ⟨hms, hmseq⟩, rfl⟩ := h
    exact ⟨rfl, hni, hnieq, hps, hpseq, hfs, hfseq, hcs, hcseq, hvs, hvseq, hms, hmseq⟩
  · rintro ⟨hing, hni, hnieq, hps, hpseq, hfs, hfseq, hcs, hcseq, hvs, hvseq, hms, hmseq⟩
    simp only [joinRowsFor, List.mem_flatMap, List.mem_filter, List.mem_map,
      beq_iff_eq]
    refine ⟨r.ni, ⟨hni, hnieq⟩, r.ps, ⟨hps, hpseq⟩,
      r.fs, ⟨hfs, hfseq⟩, r.cs, ⟨hcs, hcseq⟩, r.vs, ⟨hvs, hvseq⟩,
      r.ms, ⟨hms, hmseq⟩, ?_⟩
    rw [← hing]

theorem joinRowsFor_ing {db : DB} {a : IngredientRow} {r : JoinRow}
    (h : r ∈ joinRowsFor db a) : r.ing = a :=
  (mem_joinRowsFor_iff.mp h).1

theorem mem_joinRows_iff {db : DB} {r : JoinRow} :
    r ∈ joinRows db ↔
      r.ing ∈ db.ingredients ∧
      r.ni ∈ db.nutritional_info ∧ r.ni.ingredient_id = some r.ing.id ∧
      r.ps ∈ db.protein_sets ∧ r.ps.nutrition_info_id = some r.ni.id ∧
      r.fs ∈ db.fat_sets ∧ r.fs.nutrition_info_id = some r.ni.id ∧
      r.cs ∈ db.carbohydrate_sets ∧ r.cs.nutrition_info_id = some r.ni.id ∧
      r.vs ∈ db.vitamin_sets ∧ r.vs.nutrition_info_id = some r.ni.id ∧
      r.ms ∈ db.mineral_sets ∧ r.ms.nutrition_info_id = some r.ni.id := by
  rw [joinRows, List.mem_flatMap]
  constructor
  · rintro ⟨a, ha, hr⟩
    obtain ⟨hing, rest⟩ := mem_joinRowsFor_iff.mp hr
    subst hing
    exact ⟨ha, rest⟩
  · rintro ⟨ha, rest⟩
    exact ⟨r.ing, ha, mem_joinRowsFor_iff.mpr ⟨rfl, rest⟩⟩

/-- C5: `get_ingredients` reflects the inner-join semantics exactly: an id
appears among the returned ingredients precisely when the store has an
`ingredients` row with that id, a `nutritional_info` row for it, and a row
in each of the five nutrient sub-tables for that `nutritional_info` row;
ingredients lacking any of those rows are silently absent. -/
theorem get_ingredients_join_filter :
    ∀ (db : DB) (l : List Ingredient), get_ingredients db = some l →
    ∀ i : Nat,
      (∃ g ∈ l, g.id = i) ↔
      (∃ ing ∈ db.ingredients, ing.id = i ∧
       ∃ ni ∈ db.nutritional_info, ni.ingredient_id = some i ∧
       (∃ p ∈ db.protein_sets, p.nutrition_info_id = some ni.id) ∧
       (∃ f ∈ db.fat_sets, f.nutrition_info_id = some ni.id) ∧
       (∃ c ∈ db.carbohydrate_sets, c.nutrition_info_id = some ni.id) ∧
       (∃ v ∈ db.vitamin_sets, v.nutrition_info_id = some ni.id) ∧
       (∃ m ∈ db.mineral_sets, m.nutrition_info_id = some ni.id)) := by
  intro db l hl i
  rw [get_ingredients] at hl
  have hfa := collectSome_forall₂ hl
  constructor
  · rintro ⟨g, hg, rfl⟩
    obtain ⟨r, hr, hdec⟩ := forall₂_exists_right hfa g hg
    have hid := (decodeJoinRow_spec hdec).1
    obtain ⟨hingmem, hni, hnieq, hps, hpseq, hfs, hfseq, hcs, hcseq,
      hvs, hvseq, hms, hmseq⟩ := mem_joinRows_iff.mp hr
    exact ⟨r.ing, hingmem, hid.symm, r.ni, hni, by rw [hid]; exact hnieq,
      ⟨r.ps, hps, hpseq⟩, ⟨r.fs, hfs, hfseq⟩, ⟨r.cs, hcs, hcseq⟩,
      ⟨r.vs, hvs, hvseq⟩, ⟨r.ms, hms, hmseq⟩⟩
  · rintro ⟨ing, hingmem, rfl, ni, hni, hnieq, ⟨ps, hps, hpseq⟩, ⟨fs, hfs, hfseq⟩,
      ⟨cs, hcs, hcseq⟩, ⟨vs, hvs, hvseq⟩, ⟨ms, hms, hmseq⟩⟩
    have hr : (⟨ing, ni, ps, fs, cs, vs, ms⟩ : JoinRow) ∈ joinRows db :=
      mem_joinRows_iff.mpr ⟨hingmem, hni, hnieq, hps, hpseq, hfs, hfseq,
        hcs, hcseq, hvs, hvseq, hms, hmseq⟩
    obtain ⟨g, hg, hdec⟩ := forall₂_exists_left hfa _ hr
    exact ⟨g, hg, (decodeJoinRow_spec hdec).1⟩

/-- Witness for C5 on `dbJoin`: ingredient 1 (all six rows present) is
returned, ingredient 2 (no nutrition rows) is silently excluded. -/
theorem get_ingredients_join_filter_witness :
    (∃ g ∈ outJoin, g.id = 1) ∧ ¬(∃ g ∈ outJoin, g.id = 2) :=
  ⟨(get_ingredients_join_filter dbJoin outJoin (by decide) 1).mpr (by decide)
   , fun h => absurd ((get_ingredients_join_filter dbJoin outJoin (by decide) 2).mp h)
       (by decide)⟩

/-- C6: a `daily_logs` row whose `ingredient_id` matches no `ingredients`
row makes `get_log_entries` on that row's date crash (the source indexes
the empty `get_ingredient_by_id` result with `[0]`): the whole read
returns nothing rather than skipping the orphan. -/
theorem get_log_entries_orphan_crash :
    ∀ (db : DB) (d : String) (r : DailyLogRow),
      r ∈ db.daily_logs → r.date = d →
      (∀ ing ∈ db.ingredients, ing.id ≠ r.ingredient_id) →
      get_log_entries db d = none := by
  intro db d r hmem hdate hno
  rw [get_log_entries]
  apply collectSome_none_of_mem (a := r)
  · exact List.mem_filter.mpr ⟨hmem, by simp [hdate]⟩
  · have hempty : (joinRows db).filter (fun jr => jr.ing.id == r.ingredient_id) = [] := by
      rw [List.filter_eq_nil_iff]
      intro jr hjr
      simp only [beq_iff_eq]
      exact hno jr.ing (mem_joinRows_iff.mp hjr).1
    simp only [get_ingredient_by_id, hempty, List.take_nil, collectSome]

/-- Witness for C6: the store `dbOrphan` holds a log row for 2024-01-01
whose ingredient id 5 resolves to nothing; the read of that date panics. -/
theorem get_log_entries_orphan_crash_witness :
    get_log_entries dbOrphan "2024-01-01" = none :=
  get_log_entries_orphan_crash dbOrphan "2024-01-01" orphanRow (by decide) rfl
    (by decide)

theorem sum_map_eq_length_of_one (l : List α) (g : α → ℕ)
    (h : ∀ a ∈ l, g a = 1) : (l.map g).sum = l.length := by
  induction l with
  | nil => rfl
  | cons a as_ ih =>
    rw [List.map_cons, List.sum_cons, List.length_cons,
      h a (List.mem_cons_self a as_),
      ih (fun x hx => h x (List.mem_cons_of_mem a hx))]
    omega

theorem joinRowsFor_length_complete {db : DB} {a : IngredientRow}
    (hc : ∀ ni ∈ db.nutritional_info, ni.ingredient_id = some a.id → completeNi db ni) :
    (joinRowsFor db a).length =
      db.nutritional_info.countP (fun n => n.ingredient_id == some a.id) := by
  rw [joinRowsFor, length_flatMap_eq, List.countP_eq_length_filter]
  apply sum_map_eq_length_of_one
  intro ni hni
  have hmem := List.mem_filter.mp hni
  have hcni := hc ni hmem.1 (by simpa using hmem.2)
  obtain ⟨hp1, hf1, hc1, hv1, hm1⟩ := hcni
  rw [List.countP_eq_length_filter] at hp1 hf1 hc1 hv1 hm1
  obtain ⟨ps, hps⟩ := List.length_eq_one.mp hp1
  obtain ⟨fs, hfs⟩ := List.length_eq_one.mp hf1
  obtain ⟨cs, hcs⟩ := List.length_eq_one.mp hc1
  obtain ⟨vs, hvs⟩ := List.length_eq_one.mp hv1
  obtain ⟨ms, hms⟩ := List.length_eq_one.mp hm1
  rw [hps, hfs, hcs, hvs, hms]
  rfl

theorem joinRowsFor_countP_ing (db : DB) (a : IngredientRow) (i : Nat) :
    (joinRowsFor db a).countP (fun r => r.ing.id == i) =
      if a.id == i then (joinRowsFor db a).length else 0 := by
  by_cases h : a.id = i
  · rw [if_pos (by simpa using h)]
    apply List.countP_eq_length.mpr
    intro r hr
    simp [joinRowsFor_ing hr, h]
  · rw [if_neg (by simpa using h)]
    apply List.countP_eq_zero.mpr
    intro r hr
    simp [joinRowsFor_ing hr, h]

/-- C9: every ingredient returned by `get_ingredients` or
`get_ingredient_by_id` carries exactly one `NutritionalInfo`; the result
of `get_ingredients` has one entry per join row, so an ingredient stored
with several complete `nutritional_info` rows comes back as that many
separate one-`NutritionalInfo` entries, never as one entry holding
several. -/
theorem returned_ingredient_single_ni :
    (∀ (db : DB) (l : List Ingredient), get_ingredients db = some l →
      (∀ g ∈ l, g.nutritional_info.length = 1) ∧
      (∀ i : Nat, l.countP (fun g => g.id == i) =
        (joinRows db).countP (fun r => r.ing.id == i)) ∧
      (∀ i : Nat, db.ingredients.countP (fun a => a.id == i) = 1 →
        (∀ ni ∈ db.nutritional_info, ni.ingredient_id = some i → completeNi db ni) →
        l.countP (fun g => g.id == i) =
          db.nutritional_info.countP (fun n => n.ingredient_id == some i))) ∧
    (∀ (db : DB) (i : Nat) (l : List Ingredient), get_ingredient_by_id db i = some l →
      l.length ≤ 1 ∧ ∀ g ∈ l, g.nutritional_info.length = 1) := by
  constructor
  · intro db l hl
    rw [get_ingredients] at hl
    have hfa := collectSome_forall₂ hl
    have hcount : ∀ i : Nat, l.countP (fun g => g.id == i) =
        (joinRows db).countP (fun r => r.ing.id == i) := by
      intro i
      exact (forall₂_countP_eq
        (fun r g hd => by rw [(decodeJoinRow_spec hd).1]) hfa).symm
    refine ⟨?_, hcount, ?_⟩
    · intro g hg
      obtain ⟨r, _, hdec⟩ := forall₂_exists_right hfa g hg
      exact (decodeJoinRow_spec hdec).2
    · intro i hone hcomp
      rw [hcount i, joinRows, countP_flatMap_eq,
        List.map_congr_left (fun a _ => joinRowsFor_countP_ing db a i),
        sum_map_ite_count db.ingredients (fun a => a.id == i)
          (fun a => (joinRowsFor db a).length)
          (db.nutritional_info.countP (fun n => n.ingredient_id == some i)) ?_,
        hone, Nat.one_mul]
      intro a hmem ha
      have ha' : a.id = i := by simpa using ha
      subst ha'
      exact joinRowsFor_length_complete hcomp
  · intro db i l hl
    rw [get_ingredient_by_id] at hl
    have hfa := collectSome_forall₂ hl
    constructor
    · have hlen := List.Forall₂.length_eq hfa
      have := List.length_take_le 1 ((joinRows db).filter (fun r => r.ing.id == i))
      omega
    · intro g hg
      obtain ⟨r, _, hdec⟩ := forall₂_exists_right hfa g hg
      exact (decodeJoinRow_spec hdec).2

/-- Witness for C9 on `dbTwoNi`: two complete `nutritional_info` rows for
ingredient 1 come back as two one-`NutritionalInfo` entries. -/
theorem returned_ingredient_single_ni_witness :
    (∀ g ∈ outTwoNi, g.nutritional_info.length = 1) ∧
    outTwoNi.countP (fun g => g.id == 1) = 2 := by
  refine ⟨(returned_ingredient_single_ni.1 dbTwoNi outTwoNi (by decide)).1, ?_⟩
  have h3 := (returned_ingredient_single_ni.1 dbTwoNi outTwoNi (by decide)).2.2 1
    (by decide) (by unfold completeNi; decide)
  exact h3.trans (by decide)

theorem delete_categories_success :
    ∀ (db : DB) (cs : List Category) (fs : List (Option Nat)),
      (∀ f ∈ fs, f = none) →
      (delete_categories db cs fs).2 =
        .ok (db.categories.countP (fun r => cs.any (fun c => r.id == c.id))) ∧
      (delete_categories db cs fs).1.categories =
        db.categories.filter (fun r => !(cs.any (fun c => r.id == c.id)))
  | db, [], fs, _ => by
    constructor
    · simp [delete_categories]
    · simp [delete_categories, List.filter_eq_self]
  | db, c :: cs, fs, hf => by
    have hhead : fs.headD none = none := by
      cases fs with
      | nil => rfl
      | cons f fs' => exact hf f (List.mem_cons_self _ _)
    have htail : ∀ f ∈ fs.tail, f = none := fun f hfm =>
      hf f (List.mem_of_mem_tail hfm)
    obtain ⟨ih2, ih1⟩ := delete_categories_success (delete_category db c).1 cs fs.tail htail
    rcases hrec : delete_categories (delete_category db c).1 cs fs.tail with ⟨db2, res⟩
    rw [hrec] at ih2 ih1
    simp only at ih2 ih1
    subst ih2
    simp only [delete_categories, hhead, hrec]
    constructor
    · simp only [delete_category] at *
      rw [List.countP_filter] at *
      congr 1
      exact Eq.trans rfl (countP_or_split db.categories (fun r => r.id == c.id)
        (fun r => cs.any fun c' => r.id == c'.id)).symm
    · simp only [delete_category] at ih1
      rw [ih1, List.filter_filter]
      apply List.filter_congr
      intro r _
      simp [bne, List.any_cons, Bool.not_or, Bool.and_comm]

theorem delete_categories_first_error :
    ∀ (k : Nat) (db : DB) (cs : List Category) (fs : List (Option Nat)) (e : Nat),
      k < cs.length → fs[k]? = some (some e) → (∀ j < k, fs[j]? = some none) →
      delete_categories db cs fs =
        ((delete_categories db (cs.take k) (List.replicate k none)).1, .error e)
  | 0, db, cs, fs, e, hk, hke, _ => by
    cases cs with
    | nil => exact absurd hk (by simp)
    | cons c cs' =>
      cases fs with
      | nil => simp at hke
      | cons f fs' =>
        simp only [List.getElem?_cons_zero, Option.some.injEq] at hke
        subst hke
        simp [delete_categories]
  | k + 1, db, cs, fs, e, hk, hke, hlt => by
    cases cs with
    | nil => exact absurd hk (by simp)
    | cons c cs' =>
      cases fs with
      | nil => simp at hke
      | cons f fs' =>
        have hf0 : f = none := by
          have := hlt 0 (Nat.succ_pos k)
          simpa using this
        subst hf0
        rw [List.getElem?_cons_succ] at hke
        have hlt' : ∀ j < k, fs'[j]? = some none := by
          intro j hj
          have := hlt (j + 1) (by omega)
          rwa [List.getElem?_cons_succ] at this
        have ih := delete_categories_first_error k (delete_category db c).1 cs' fs' e
          (by simpa using hk) hke hlt'
        simp only [delete_categories, List.headD_cons, List.tail_cons,
          List.take_succ_cons, List.replicate_succ]
        rw [ih]
        rcases delete_categories (delete_category db c).1 (cs'.take k)
          (List.replicate k none) with ⟨db2, res⟩
        cases res <;> rfl

theorem delete_ingredients_success :
    ∀ (db : DB) (gs : List Ingredient) (fs : List (Option Nat)),
      (∀ f ∈ fs, f = none) →
      (delete_ingredients db gs fs).2 =
        .ok (db.ingredients.countP (fun r => gs.any (fun g => r.id == g.id))) ∧
      (delete_ingredients db gs fs).1.ingredients =
        db.ingredients.filter (fun r => !(gs.any (fun g => r.id == g.id)))
  | db, [], fs, _ => by
    constructor
    · simp [delete_ingredients]
    · simp [delete_ingredients, List.filter_eq_self]
  | db, g :: gs, fs, hf => by
    have hhead : fs.headD none = none := by
      cases fs with
      | nil => rfl
      | cons f fs' => exact hf f (List.mem_cons_self _ _)
    have htail : ∀ f ∈ fs.tail, f = none := fun f hfm =>
      hf f (List.mem_of_mem_tail hfm)
    obtain ⟨ih2, ih1⟩ := delete_ingredients_success (delete_ingredient db g).1 gs fs.tail htail
    rcases hrec : delete_ingredients (delete_ingredient db g).1 gs fs.tail with ⟨db2, res⟩
    rw [hrec] at ih2 ih1
    simp only at ih2 ih1
    subst ih2
    simp only [delete_ingredients, hhead, hrec]
    constructor
    · simp only [delete_ingredient] at *
      rw [List.countP_filter] at *
      congr 1
      exact Eq.trans rfl (countP_or_split db.ingredients (fun r => r.id == g.id)
        (fun r => gs.any fun g' => r.id == g'.id)).symm
    · simp only [delete_ingredient] at ih1
      rw [ih1, List.filter_filter]
      apply List.filter_congr
      intro r _
      simp [bne, List.any_cons, Bool.not_or, Bool.and_comm]

theorem delete_ingredients_first_error :
    ∀ (k : Nat) (db : DB) (gs : List Ingredient) (fs : List (Option Nat)) (e : Nat),
      k < gs.length → fs[k]? = some (some e) → (∀ j < k, fs[j]? = some none) →
      delete_ingredients db gs fs =
        ((delete_ingredients db (gs.take k) (List.replicate k none)).1, .error e)
  | 0, db, gs, fs, e, hk, hke, _ => by
    cases gs with
    | nil => exact absurd hk (by simp)
    | cons g gs' =>
      cases fs with
      | nil => simp at hke
      | cons f fs' =>
        simp only [List.getElem?_cons_zero, Option.some.injEq] at hke
        subst hke
        simp [delete_ingredients]
  | k + 1, db, gs, fs, e, hk, hke, hlt => by
    cases gs with
    | nil => exact absurd hk (by simp)
    | cons g gs' =>
      cases fs with
      | nil => simp at hke
      | cons f fs' =>
        have hf0 : f = none := by
          have := hlt 0 (Nat.succ_pos k)
          simpa using this
        subst hf0
        rw [List.getElem?_cons_succ] at hke
        have hlt' : ∀ j < k, fs'[j]? = some none := by
          intro j hj
          have := hlt (j + 1) (by omega)
          rwa [List.getElem?_cons_succ] at this
        have ih := delete_ingredients_first_error k (delete_ingredient db g).1 gs' fs' e
          (by simpa using hk) hke hlt'
        simp only [delete_ingredients, List.headD_cons, List.tail_cons,
          List.take_succ_cons, List.replicate_succ]
        rw [ih]
        rcases delete_ingredients (delete_ingredient db g).1 (gs'.take k)
          (List.replicate k none) with ⟨db2, res⟩
        cases res <;> rfl

/-- C7: `delete_categories` and `delete_ingredients` delete their items
sequentially.  When no per-item statement fails, the result is `Ok` of the
total number of deleted rows (the rows whose id occurs in the batch) and
the table holds exactly the surviving rows.  When the delete of item `k`
fails, that first error is returned at once: the final state is the state
after the first `k` deletes only — later items are not attempted and the
earlier deletes are not rolled back. -/
theorem batch_delete_sequential :
    (∀ (db : DB) (cs : List Category) (fs : List (Option Nat)),
      (∀ f ∈ fs, f = none) →
      (delete_categories db cs fs).2 =
        .ok (db.categories.countP (fun r => cs.any (fun c => r.id == c.id))) ∧
      (delete_categories db cs fs).1.categories =
        db.categories.filter (fun r => !(cs.any (fun c => r.id == c.id)))) ∧
    (∀ (db : DB) (cs : List Category) (fs : List (Option Nat)) (k e : Nat),
      k < cs.length → fs[k]? = some (some e) → (∀ j < k, fs[j]? = some none) →
      delete_categories db cs fs =
        ((delete_categories db (cs.take k) (List.replicate k none)).1, .error e)) ∧
    (∀ (db : DB) (gs : List Ingredient) (fs : List (Option Nat)),
      (∀ f ∈ fs, f = none) →
      (delete_ingredients db gs fs).2 =
        .ok (db.ingredients.countP (fun r => gs.any (fun g => r.id == g.id))) ∧
      (delete_ingredients db gs fs).1.ingredients =
        db.ingredients.filter (fun r => !(gs.any (fun g => r.id == g.id)))) ∧
    (∀ (db : DB) (gs : List Ingredient) (fs : List (Option Nat)) (k e : Nat),
      k < gs.length → fs[k]? = some (some e) → (∀ j < k, fs[j]? = some none) →
      delete_ingredients db gs fs =
        ((delete_ingredients db (gs.take k) (List.replicate k none)).1, .error e)) :=
  ⟨delete_categories_success
   , fun db cs fs k e hk hke hlt => delete_categories_first_error k db cs fs e hk hke hlt
   , delete_ingredients_success
   , fun db gs fs k e hk hke hlt => delete_ingredients_first_error k db gs fs e hk hke hlt⟩

/-- Witness for C7 on `dbBatch`: a fault-free two-category batch returns
`Ok 2`; a fault at the second item returns that error with the first
delete kept; the same on the two-ingredient batch. -/
theorem batch_delete_sequential_witness :
    (delete_categories dbBatch [catFruit, catVeg] [none, none]).2 = .ok 2 ∧
    delete_categories dbBatch [catFruit, catVeg] [none, some 7] =
      ((delete_categories dbBatch [catFruit] (List.replicate 1 none)).1, .error 7) ∧
    (delete_ingredients dbBatch [ingX, ingZ] [none, none]).2 = .ok 2 ∧
    delete_ingredients dbBatch [ingX, ingZ] [none, some 9] =
      ((delete_ingredients dbBatch [ingX] (List.replicate 1 none)).1, .error 9) :=
  ⟨((batch_delete_sequential.1 dbBatch [catFruit, catVeg] [none, none]
      (by decide)).1).trans (congrArg Except.ok (by decide))
   , batch_delete_sequential.2.1 dbBatch [catFruit, catVeg] [none, some 7] 1 7
      (by decide) (by decide) (by decide)
   , ((batch_delete_sequential.2.2.1 dbBatch [ingX, ingZ] [none, none]
      (by decide)).1).trans (congrArg Except.ok (by decide))
   , batch_delete_sequential.2.2.2 dbBatch [ingX, ingZ] [none, some 9] 1 9
      (by decide) (by decide) (by decide)⟩

theorem create_mem_preserve {s : TableStore} {x : String × List (List String)}
    (m : String) (h : x ∈ s) : x ∈ create_table_if_not_exists s m := by
  rw [create_table_if_not_exists]
  split
  · exact h
  · exact List.mem_append_left _ h

theorem create_any_mono {s : TableStore} {n : String} (m : String)
    (h : s.any (fun t => t.1 == n) = true) :
    (create_table_if_not_exists s m).any (fun t => t.1 == n) = true := by
  rw [create_table_if_not_exists]
  split
  · exact h
  · rw [List.any_append, h, Bool.true_or]

theorem create_any_self (s : TableStore) (m : String) :
    (create_table_if_not_exists s m).any (fun t => t.1 == m) = true := by
  rw [create_table_if_not_exists]
  split
  · assumption
  · simp

theorem create_id_of_any {s : TableStore} {m : String}
    (h : s.any (fun t => t.1 == m) = true) :
    create_table_if_not_exists s m = s := by
  rw [create_table_if_not_exists, if_pos h]

theorem foldl_create_mem {x : String × List (List String)} :
    ∀ (names : List String) (s : TableStore), x ∈ s →
      x ∈ names.foldl create_table_if_not_exists s
  | [], _, h => h
  | n :: ns, s, h =>
    foldl_create_mem ns (create_table_if_not_exists s n) (create_mem_preserve n h)

theorem foldl_create_any_mono {n : String} :
    ∀ (names : List String) (s : TableStore),
      s.any (fun t => t.1 == n) = true →
      (names.foldl create_table_if_not_exists s).any (fun t => t.1 == n) = true
  | [], _, h => h
  | m :: ms, s, h =>
    foldl_create_any_mono ms (create_table_if_not_exists s m) (create_any_mono m h)

theorem foldl_create_any {n : String} :
    ∀ (names : List String) (s : TableStore), n ∈ names →
      (names.foldl create_table_if_not_exists s).any (fun t => t.1 == n) = true := by
  intro names
  induction names with
  | nil => intro s h; exact absurd h (List.not_mem_nil n)
  | cons m ms ih =>
    intro s h
    rcases List.mem_cons.mp h with rfl | hmem
    · exact foldl_create_any_mono ms _ (create_any_self s n)
    · exact ih _ hmem

theorem foldl_create_id :
    ∀ (names : List String) (s : TableStore),
      (∀ n ∈ names, s.any (fun t => t.1 == n) = true) →
      names.foldl create_table_if_not_exists s = s
  | [], _, _ => rfl
  | n :: ns, s, h => by
    rw [List.foldl_cons, create_id_of_any (h n (List.mem_cons_self _ _))]
    exact foldl_create_id ns s (fun m hm => h m (List.mem_cons_of_mem _ hm))

/-- C8: `setup_tables` is safe on every start and idempotent: it keeps
every table (with its rows) already in the store, after it every one of
the ten tables exists — on a fresh store just as on an initialized one —
and running it a second time changes nothing at all. -/
theorem setup_tables_idempotent :
    (∀ s : TableStore, setup_tables (setup_tables s) = setup_tables s) ∧
    (∀ (s : TableStore) (x : String × List (List String)),
      x ∈ s → x ∈ setup_tables s) ∧
    (∀ (s : TableStore) (n : String), n ∈ setupTableNames →
      (setup_tables s).any (fun t => t.1 == n) = true) := by
  refine ⟨?_, ?_, ?_⟩
  · intro s
    exact foldl_create_id setupTableNames (setup_tables s)
      (fun n hn => foldl_create_any setupTableNames s hn)
  · intro s x h
    exact foldl_create_mem setupTableNames s h
  · intro s n hn
    exact foldl_create_any setupTableNames s hn

/-- Witness for C8 on the pre-initialized store `storePre`: its category
row survives setup, all ten tables exist afterwards, and a second setup is
a no-op. -/
theorem setup_tables_idempotent_witness :
    setup_tables (setup_tables storePre) = setup_tables storePre ∧
    ("categories", [["2", "veg", "leaf", "#00ff00ff"]]) ∈ setup_tables storePre ∧
    (setup_tables storePre).any (fun t => t.1 == "daily_logs") = true :=
  ⟨setup_tables_idempotent.1 storePre
   , setup_tables_idempotent.2.1 storePre _ (by decide)
   , setup_tables_idempotent.2.2 storePre "daily_logs" (by decide)⟩

theorem insertIngredientLoop_allfail :
    ∀ (db : DB) (ns : List NutritionalInfo),
      insertIngredientLoop db ns (List.replicate ns.length true) = db
  | _, [] => rfl
  | db, n :: ns => by
    simp only [insertIngredientLoop, List.length_cons, List.replicate_succ,
      List.headD_cons, List.tail_cons]
    exact insertIngredientLoop_allfail db ns

theorem insertNutritionalInfoBatch_ingredients (db : DB) (n : NutritionalInfo)
    (fault : Bool) :
    (insertNutritionalInfoBatch db n fault).ingredients = db.ingredients := by
  rw [insertNutritionalInfoBatch]
  split
  · rfl
  · split <;> rfl

theorem insertIngredientLoop_ingredients :
    ∀ (db : DB) (ns : List NutritionalInfo) (fs : List Bool),
      (insertIngredientLoop db ns fs).ingredients = db.ingredients
  | _, [], _ => rfl
  | db, n :: ns, fs => by
    simp only [insertIngredientLoop]
    rw [insertIngredientLoop_ingredients _ ns fs.tail,
      insertNutritionalInfoBatch_ingredients]

/-- C10: `insert_ingredient` discards both `execute_batch` results, so it
reports nothing to its caller: with every batch failing it returns the
store unchanged — same return shape as success, no error, no panic — and
only with the batches succeeding does an ingredient row actually appear. -/
theorem insert_ingredient_reports_nothing :
    ∀ (db : DB) (ing : Ingredient),
      insert_ingredient db ing true
        (List.replicate ing.nutritional_info.length true) = db ∧
      (insert_ingredient db ing false
          (List.replicate ing.nutritional_info.length false)).ingredients.length =
        db.ingredients.length + 1 := by
  intro db ing
  constructor
  · rw [insert_ingredient]
    exact insertIngredientLoop_allfail db ing.nutritional_info
  · rw [insert_ingredient, insertIngredientLoop_ingredients]
    simp [insertIngredientBatch1]

/-- C3: the two-phase insert is not atomic.  On a well-formed store, when
the first batch (ingredient + categories) succeeds and the per-nutrition
batch then fails, the ingredient row is persisted while not a single
`nutritional_info` row references it: the partial state the claim rules
out is reachable. -/
theorem insert_ingredient_not_atomic :
    ∀ (db : DB) (ing : Ingredient) (n : NutritionalInfo),
      WfDb db → ing.nutritional_info = [n] →
      (insert_ingredient db ing false [true]).ingredients =
        db.ingredients ++ [⟨db.next_ingredient_id, ing.name, ing.brand⟩] ∧
      ∀ r ∈ (insert_ingredient db ing false [true]).nutritional_info,
        r.ingredient_id ≠ some db.next_ingredient_id := by
  intro db ing n hwf hni
  have hins : insert_ingredient db ing false [true] =
      insertIngredientBatch1 db ing false := by
    rw [insert_ingredient, hni]
    rfl
  rw [hins]
  constructor
  · simp [insertIngredientBatch1]
  · intro r hr heq
    have hmem : r ∈ db.nutritional_info := by
      simpa [insertIngredientBatch1] using hr
    have hlt := (hwf.2.1 r hmem).2 db.next_ingredient_id heq
    exact absurd hlt (lt_irrefl _)

/-- Witness for C3 on the empty store and `plainIngredient`: after the
failing second phase, the ingredient row with id 1 exists and no
`nutritional_info` row points at it. -/
theorem insert_ingredient_not_atomic_witness :
    (insert_ingredient emptyDb plainIngredient false [true]).ingredients =
      emptyDb.ingredients ++ [⟨1, "Rice", "Acme"⟩] ∧
    ∀ r ∈ (insert_ingredient emptyDb plainIngredient false [true]).nutritional_info,
      r.ingredient_id ≠ some 1 :=
  insert_ingredient_not_atomic emptyDb plainIngredient zeroNutritionalInfo
    (by simp [WfDb, emptyDb]) rfl

theorem joinRowsFor_filter_ing (db : DB) (a : IngredientRow) (i : Nat) :
    (joinRowsFor db a).filter (fun r => r.ing.id == i) =
      if a.id == i then joinRowsFor db a else [] := by
  by_cases h : a.id = i
  · rw [if_pos (by simpa using h)]
    apply List.filter_eq_self.mpr
    intro r hr
    simp [joinRowsFor_ing hr, h]
  · rw [if_neg (by simpa using h)]
    apply List.filter_eq_nil_iff.mpr
    intro r hr
    simp [joinRowsFor_ing hr, h]

theorem joinRows_filter_eq (db : DB) (i : Nat) :
    (joinRows db).filter (fun r => r.ing.id == i) =
      (db.ingredients.filter (fun a => a.id == i)).flatMap (joinRowsFor db) := by
  rw [joinRows, List.filter_flatMap, ← flatMap_ite_eq_filter]
  exact List.flatMap_congr (fun a _ => joinRowsFor_filter_ing db a i)

theorem fmtNutritionalInfo_eq_of_oneDec (n : NutritionalInfo)
    (h : oneDecList (niFields n) = true) : fmtNutritionalInfo n = n := by
  have hf : ∀ q ∈ niFields n, fmtQ q = q := by
    intro q hq
    exact fmtQ_eq_of_oneDec q (List.all_eq_true.mp (by simpa [oneDecList] using h) q hq)
  obtain ⟨da, du, kc,
    ⟨⟨⟨e1, e2, e3, e4, e5, e6, e7, e8, e9⟩,
      ⟨a1, a2, a3, a4, a5, a6, a7, a8, a9, a10, a11⟩⟩,
     ⟨f1, f2, f3⟩, ⟨cb1, cb2, cb3, cb4⟩⟩,
    ⟨⟨v1, v2, v3, v4, v5, v6, v7, v8, v9, v10, v11, v12, v13, v14⟩,
     ⟨m1, m2, m3, m4, m5, m6, m7, m8, m9, m10⟩⟩⟩ := n
  simp only [niFields] at hf
  simp only [fmtNutritionalInfo, fmtMacronutrients, fmtMicronutrients, fmtProteins,
    fmtEssentialAminoAcids, fmtNonEssentialAminoAcids, fmtFats, fmtCarbohydrates,
    fmtVitamins, fmtMinerals, NutritionalInfo.mk.injEq, Macronutrients.mk.injEq,
    Micronutrients.mk.injEq, Proteins.mk.injEq, EssentialAminoAcids.mk.injEq,
    NonEssentialAminoAcids.mk.injEq, Fats.mk.injEq, Carbohydrates.mk.injEq,
    Vitamins.mk.injEq, Minerals.mk.injEq]
  and_intros <;> first
    | trivial
    | (apply hf; simp)

/-- The effect of `insert_ingredient` for an ingredient carrying exactly
one `NutritionalInfo`, on a store whose `_variables` temp table does not
exist and with both batches succeeding: the ingredient row, its category
links, the `nutritional_info` row and the five nutrient sub-rows are all
appended, every numeric value through the `{:.1}` formatting. -/
theorem insert_ingredient_single_eq (db : DB) (ing : Ingredient)
    (n : NutritionalInfo) (hvars : db.vars = none)
    (hni : ing.nutritional_info = [n]) :
    insert_ingredient db ing false [false] =
      { db with
          ingredients := db.ingredients ++
            [⟨db.next_ingredient_id, ing.name, ing.brand⟩]
          , ingredient_categories := db.ingredient_categories ++
            ing.categories.map (fun c => ⟨some db.next_ingredient_id, c.id⟩)
          , nutritional_info := db.nutritional_info ++
            [⟨db.next_nutritional_info_id, fmtQ n.default_amount,
              n.default_unit.as_u8, fmtQ n.kilocalories,
              some db.next_ingredient_id⟩]
          , protein_sets := db.protein_sets ++
            [⟨db.next_protein_set_id, some db.next_nutritional_info_id,
              fmtProteins n.macronutrients.proteins⟩]
          , fat_sets := db.fat_sets ++
            [⟨db.next_fat_set_id, some db.next_nutritional_info_id,
              fmtFats n.macronutrients.fats⟩]
          , carbohydrate_sets := db.carbohydrate_sets ++
            [⟨db.next_carbohydrate_set_id, some db.next_nutritional_info_id,
              fmtCarbohydrates n.macronutrients.carbohydrates⟩]
          , vitamin_sets := db.vitamin_sets ++
            [⟨db.next_vitamin_set_id, some db.next_nutritional_info_id,
              fmtVitamins n.micronutrients.vitamins⟩]
          , mineral_sets := db.mineral_sets ++
            [⟨db.next_mineral_set_id, some db.next_nutritional_info_id,
              fmtMinerals n.micronutrients.minerals⟩]
          , vars := none
          , next_ingredient_id := db.next_ingredient_id + 1
          , next_nutritional_info_id := db.next_nutritional_info_id + 1
          , next_protein_set_id := db.next_protein_set_id + 1
          , next_fat_set_id := db.next_fat_set_id + 1
          , next_carbohydrate_set_id := db.next_carbohydrate_set_id + 1
          , next_vitamin_set_id := db.next_vitamin_set_id + 1
          , next_mineral_set_id := db.next_mineral_set_id + 1 } := by
  rcases db with ⟨t1, t2, t3, t4, t5, t6, t7, t8, t9, t10, vrs,
    c1, c2, c3, c4, c5, c6, c7, c8, c9⟩
  simp only at hvars
  subst hvars
  rw [insert_ingredient, hni]
  rfl

/-- C2 (amended): on a well-formed store, inserting an ingredient with one
fully populated `NutritionalInfo` and reading it back by the fresh id
yields exactly one ingredient whose single `NutritionalInfo` equals the
inserted one with every numeric field rounded to one decimal digit by the
insert's `{:.1}` SQL formatting; when every numeric field already carries
at most one decimal digit the read-back value equals the inserted value
field for field. -/
theorem insert_roundtrip_fmt :
    ∀ (db : DB) (ing : Ingredient) (n : NutritionalInfo),
      WfDb db → db.vars = none → ing.nutritional_info = [n] →
      ∃ g : Ingredient,
        get_ingredient_by_id (insert_ingredient db ing false [false])
            db.next_ingredient_id = some [g] ∧
        g.nutritional_info = [fmtNutritionalInfo n] ∧
        (oneDecList (niFields n) = true → g.nutritional_info = [n]) := by
  intro db ing n hwf hvars hni
  obtain ⟨hwf1, hwf2, hwf3, hwf4, hwf5, hwf6, hwf7⟩ := hwf
  have heq := insert_ingredient_single_eq db ing n hvars hni
  have hold : ∀ a ∈ db.ingredients, ¬(a.id == db.next_ingredient_id) = true := by
    intro a ha h
    rw [beq_iff_eq] at h
    exact absurd (h ▸ hwf1 a ha) (lt_irrefl _)
  have hniold : ∀ m ∈ db.nutritional_info,
      ¬(m.ingredient_id == some db.next_ingredient_id) = true := by
    intro m hm h
    rw [beq_iff_eq] at h
    exact absurd ((hwf2 m hm).2 _ h) (lt_irrefl _)
  have hpsold : ∀ p ∈ db.protein_sets,
      ¬(p.nutrition_info_id == some db.next_nutritional_info_id) = true := by
    intro p hp h
    rw [beq_iff_eq] at h
    exact absurd (hwf3 p hp _ h) (lt_irrefl _)
  have hfsold : ∀ f ∈ db.fat_sets,
      ¬(f.nutrition_info_id == some db.next_nutritional_info_id) = true := by
    intro f hf h
    rw [beq_iff_eq] at h
    exact absurd (hwf4 f hf _ h) (lt_irrefl _)
  have hcsold : ∀ c ∈ db.carbohydrate_sets,
      ¬(c.nutrition_info_id == some db.next_nutritional_info_id) = true := by
    intro c hc h
    rw [beq_iff_eq] at h
    exact absurd (hwf5 c hc _ h) (lt_irrefl _)
  have hvsold : ∀ v ∈ db.vitamin_sets,
      ¬(v.nutrition_info_id == some db.next_nutritional_info_id) = true := by
    intro v hv h
    rw [beq_iff_eq] at h
    exact absurd (hwf6 v hv _ h) (lt_irrefl _)
  have hmsold : ∀ m ∈ db.mineral_sets,
      ¬(m.nutrition_info_id == some db.next_nutritional_info_id) = true := by
    intro m hm h
    rw [beq_iff_eq] at h
    exact absurd (hwf7 m hm _ h) (lt_irrefl _)
  refine ⟨{ id := db.next_ingredient_id, name := ing.name, brand := ing.brand
            , categories := categoriesFor (insert_ingredient db ing false [false])
                db.next_ingredient_id
            , nutritional_info := [fmtNutritionalInfo n] }, ?_, rfl,
    fun hdec => by rw [fmtNutritionalInfo_eq_of_oneDec n hdec]⟩
  rw [heq, get_ingredient_by_id, joinRows_filter_eq]
  try dsimp only
  rw [List.filter_append, List.filter_eq_nil_iff.mpr hold, List.nil_append,
    List.filter_cons_of_pos (by simp), List.filter_nil, List.flatMap_singleton,
    joinRowsFor]
  try dsimp only
  rw [List.filter_append, List.filter_eq_nil_iff.mpr hniold, List.nil_append,
    List.filter_cons_of_pos (by simp), List.filter_nil, List.flatMap_singleton]
  try dsimp only
  rw [List.filter_append, List.filter_eq_nil_iff.mpr hpsold, List.nil_append,
    List.filter_cons_of_pos (by simp), List.filter_nil, List.flatMap_singleton]
  try dsimp only
  rw [List.filter_append, List.filter_eq_nil_iff.mpr hfsold, List.nil_append,
    List.filter_cons_of_pos (by simp), List.filter_nil, List.flatMap_singleton]
  try dsimp only
  rw [List.filter_append, List.filter_eq_nil_iff.mpr hcsold, List.nil_append,
    List.filter_cons_of_pos (by simp), List.filter_nil, List.flatMap_singleton]
  try dsimp only
  rw [List.filter_append, List.filter_eq_nil_iff.mpr hvsold, List.nil_append,
    List.filter_cons_of_pos (by simp), List.filter_nil, List.flatMap_singleton]
  try dsimp only
  rw [List.filter_append, List.filter_eq_nil_iff.mpr hmsold, List.nil_append,
    List.filter_cons_of_pos (by simp), List.filter_nil]
  simp only [List.map_cons, List.map_nil, List.take_succ_cons, List.take_zero,
    collectSome, decodeJoinRow, from_uint_as_u8]
  rfl

/-- C2 counterexample: the claim's exact (float-tolerance) round-trip
fails.  `quarterIngredient` stores histidine 0.25 g — exactly representable
in `f32` — but `insert_ingredient` renders it with `{:.1}` as `0.2`, so the
read-back histidine is 1/5, not the inserted 1/4. -/
theorem insert_roundtrip_exact_counterexample :
    (get_ingredient_by_id (insert_ingredient emptyDb quarterIngredient false [false]) 1).map
        (fun l => l.map fun g => g.nutritional_info.map
          fun m => m.macronutrients.proteins.essential_amino_acids.histidine) =
      some [[mkRat 1 5]] ∧
    quarterNutritionalInfo.macronutrients.proteins.essential_amino_acids.histidine =
      mkRat 1 4 ∧
    (mkRat 1 5 : ℚ) ≠ mkRat 1 4 :=
  ⟨by decide, by decide, by decide⟩

/-- Witness for the amended C2 on the empty store and `plainIngredient`,
whose nutrient fields all carry at most one decimal digit. -/
theorem insert_roundtrip_fmt_witness :
    ∃ g : Ingredient,
      get_ingredient_by_id (insert_ingredient emptyDb plainIngredient false [false]) 1 =
        some [g] ∧
      g.nutritional_info = [fmtNutritionalInfo zeroNutritionalInfo] ∧
      (oneDecList (niFields zeroNutritionalInfo) = true →
        g.nutritional_info = [zeroNutritionalInfo]) :=
  insert_roundtrip_fmt emptyDb plainIngredient zeroNutritionalInfo
    (by simp [WfDb, emptyDb]) rfl rfl

end Sophross
